import Mathlib

/-!
Shallow embedding of the projection / viewport / interaction engine of
`src/components/FranceMap.tsx`, together with theorems settling the
specification claims about it.  Numeric values carried by the component
(times in minutes, scales, screen coordinates) are embedded as rationals;
event payloads and region records are embedded as explicit structures.
-/

namespace FranceMap

/-- A sunrise/sunset pair in minutes since midnight, as stored in the
`SOLAR_TIMES` table consumed at lines 135 and 140 of FranceMap.tsx. -/
structure SolarWindow where
  sunrise : ℚ
  sunset : ℚ
deriving DecidableEq, Repr

/-- The lookup-with-default `SOLAR_TIMES[month] || { sunrise: 360, sunset: 1080 }`
performed at lines 135 and 140: the table lookup result (possibly absent)
is replaced by the default window when absent. -/
def resolveSolar (lookup : Option SolarWindow) : SolarWindow :=
  lookup.getD ⟨360, 1080⟩

/-- `isNight` (FranceMap.tsx lines 134-137):
`time < solar.sunrise || time > solar.sunset` after the default-window
substitution. -/
def isNight (time : ℚ) (lookup : Option SolarWindow) : Bool :=
  let solar := resolveSolar lookup
  decide (time < solar.sunrise) || decide (time > solar.sunset)

/-- Dawn highlight color literal (line 141). -/
def dawnColor : String := "#fbbf24"

/-- Day highlight color literal (line 142). -/
def dayColor : String := "#06b6d4"

/-- Dusk highlight color literal (line 143). -/
def duskColor : String := "#db2777"

/-- Night highlight color literal (line 144). -/
def nightColor : String := "#38bdf8"

/-- `highlightColor` (FranceMap.tsx lines 139-145): a first-match chain of
half-open time bands around sunrise and sunset, after the default-window
substitution. -/
def highlightColor (time : ℚ) (lookup : Option SolarWindow) : String :=
  let solar := resolveSolar lookup
  if time ≥ solar.sunrise - 60 ∧ time < solar.sunrise + 30 then dawnColor
  else if time ≥ solar.sunrise + 30 ∧ time < solar.sunset - 60 then dayColor
  else if time ≥ solar.sunset - 60 ∧ time < solar.sunset + 60 then duskColor
  else nightColor

/-- Membership in the dawn band `[sunrise-60, sunrise+30)`. -/
def inDawnBand (time : ℚ) (s : SolarWindow) : Prop :=
  s.sunrise - 60 ≤ time ∧ time < s.sunrise + 30

/-- Membership in the day band `[sunrise+30, sunset-60)`. -/
def inDayBand (time : ℚ) (s : SolarWindow) : Prop :=
  s.sunrise + 30 ≤ time ∧ time < s.sunset - 60

/-- Membership in the dusk band `[sunset-60, sunset+60)`. -/
def inDuskBand (time : ℚ) (s : SolarWindow) : Prop :=
  s.sunset - 60 ≤ time ∧ time < s.sunset + 60

instance (time : ℚ) (s : SolarWindow) : Decidable (inDawnBand time s) :=
  inferInstanceAs (Decidable (_ ∧ _))

instance (time : ℚ) (s : SolarWindow) : Decidable (inDayBand time s) :=
  inferInstanceAs (Decidable (_ ∧ _))

instance (time : ℚ) (s : SolarWindow) : Decidable (inDuskBand time s) :=
  inferInstanceAs (Decidable (_ ∧ _))

/-! ### Viewport Controller -/

/-- A d3 zoom transform: scale `k` and translation `(x, y)`, applied to the
content group at line 80 of FranceMap.tsx. -/
structure Transform where
  k : ℚ
  x : ℚ
  y : ℚ
deriving DecidableEq, Repr

/-- `transform.invertX(px)` of a d3 zoom transform: `(px - x) / k`. -/
def Transform.invertX (t : Transform) (px : ℚ) : ℚ := (px - t.x) / t.k

/-- `transform.invertY(py)` of a d3 zoom transform: `(py - y) / k`. -/
def Transform.invertY (t : Transform) (py : ℚ) : ℚ := (py - t.y) / t.k

/-- `transform.translate(a, b)` of a d3 zoom transform:
`Transform(k, x + k*a, y + k*b)`. -/
def Transform.translateBy (t : Transform) (a b : ℚ) : Transform :=
  ⟨t.k, t.x + t.k * a, t.y + t.k * b⟩

/-- Lower bound of `.scaleExtent([1, 8])` (FranceMap.tsx line 77). -/
def scaleExtentLo : ℚ := 1

/-- Upper bound of `.scaleExtent([1, 8])` (FranceMap.tsx line 77). -/
def scaleExtentHi : ℚ := 8

/-- The scale constraint d3-zoom applies to every requested scale under the
configuration `.scaleExtent([1, 8])` of line 77: the request is clamped to
the extent, `Math.max(lo, Math.min(hi, k))`. -/
def constrainScale (k : ℚ) : ℚ := max scaleExtentLo (min scaleExtentHi k)

/-- `scaleBy` of d3-zoom on the scale component: multiply the current scale
by the factor, then clamp to the configured scale extent. -/
def scaleBy (k factor : ℚ) : ℚ := constrainScale (k * factor)

/-- Factor passed by `handleZoomIn` (FranceMap.tsx line 105): `scaleBy, 1.5`. -/
def zoomInFactor : ℚ := 15 / 10

/-- Factor passed by `handleZoomOut` (FranceMap.tsx line 112): `scaleBy, 0.66`. -/
def zoomOutFactor : ℚ := 66 / 100

/-- Transition duration of `handleZoomIn` (line 105): `.duration(300)`. -/
def zoomInDurationMs : ℕ := 300

/-- Transition duration of `handleZoomOut` (line 112): `.duration(300)`. -/
def zoomOutDurationMs : ℕ := 300

/-- Scale reached by `handleZoomIn` from current scale `k`. -/
def handleZoomInScale (k : ℚ) : ℚ := scaleBy k zoomInFactor

/-- Scale reached by `handleZoomOut` from current scale `k`. -/
def handleZoomOutScale (k : ℚ) : ℚ := scaleBy k zoomOutFactor

/-- Canvas width of the SVG viewBox, 550 in both device classes
(FranceMap.tsx lines 78 and 214). -/
def canvasWidth : ℚ := 550

/-- Canvas height of the SVG viewBox: 450 on mobile, 550 on desktop
(FranceMap.tsx lines 78 and 214). -/
def canvasHeight (isMobile : Bool) : ℚ := if isMobile then 450 else 550

/-- JavaScript `a || b` on numbers: `a` unless `a` is zero. -/
def jsOr (a b : ℚ) : ℚ := if a = 0 then b else a

/-- One axis of the default d3-zoom translation constraint, for a viewport
extent and a translate extent that both run from 0 to `w` on this axis
(which is the configuration of line 78, where the extents coincide with
the viewBox).  `d0` and `d1` are how far the inverted viewport corners
overflow the translate extent; the translation is shifted back by the
overflow (averaging when the content is smaller than the viewport), via
`transform.translate`, so the new coordinate is `x + k * adjustment`. -/
def constrainAxis (k x w : ℚ) : ℚ :=
  let d0 := (0 - x) / k - 0
  let d1 := (w - x) / k - w
  x + k * (if d1 > d0 then (d0 + d1) / 2 else jsOr (min 0 d0) (max 0 d1))

/-- The translation constraint d3-zoom applies under the configuration
`.translateExtent([[0, 0], [550, isMobile ? 450 : 550]])` of line 78: the
default constrain acts on the two axes independently, with extent 550 in x
and the device-class canvas height in y; the scale is untouched. -/
def constrainTranslate (isMobile : Bool) (t : Transform) : Transform :=
  ⟨t.k, constrainAxis t.k t.x canvasWidth,
    constrainAxis t.k t.y (canvasHeight isMobile)⟩

/-! ### Gesture filter -/

/-- The DOM event kinds distinguished by the zoom filter; every event kind
other than the three the filter tests is collapsed into `other`. -/
inductive EventType
  | touchstart
  | mousedown
  | wheel
  | other
deriving DecidableEq, Repr

/-- The part of a DOM event inspected by the filter: its type and whether
the Ctrl modifier key is held. -/
structure GestureEvent where
  type : EventType
  ctrlKey : Bool
deriving DecidableEq, Repr

/-- `z.filter` (FranceMap.tsx lines 85-91): accept touchstart and
mousedown, accept wheel only with the Ctrl key, reject everything else. -/
def zoomFilter (e : GestureEvent) : Bool :=
  if e.type = EventType.touchstart ∨ e.type = EventType.mousedown then true
  else if e.type = EventType.wheel ∧ e.ctrlKey = true then true
  else false

/-- One gesture arriving at the zoom behavior: d3-zoom consults the filter
first and starts no gesture when it rejects, leaving the transform
untouched; otherwise the gesture produces the updated transform. -/
def gestureStep (t : Transform) (e : GestureEvent)
    (update : Transform → Transform) : Transform :=
  if zoomFilter e then update t else t

/-! ### Geometry Source Adapter -/

/-- A GeoJSON feature as consumed by the component: region code and display
name from `properties`, and the polygon rings of its geometry (carried
along, inspected only by the external projection calls). -/
structure Feature where
  code : String
  nom : String
  geometry : List (List (ℚ × ℚ))
deriving DecidableEq, Repr

/-- `DROM_CODES` (FranceMap.tsx line 16). -/
def DROM_CODES : List String := ["971", "972", "973", "974", "976"]

/-- `metropoleFeatures` (line 169): when the `features` field is present,
keep the features whose code is not a DROM code; otherwise the empty
list. -/
def metropoleFeatures (geoFeatures : Option (List Feature)) : List Feature :=
  match geoFeatures with
  | none => []
  | some fs => fs.filter (fun f => ¬ f.code ∈ DROM_CODES)

/-- `dromFeatures` (line 170): when the `features` field is present, keep
the features whose code is a DROM code; otherwise the empty list. -/
def dromFeatures (geoFeatures : Option (List Feature)) : List Feature :=
  match geoFeatures with
  | none => []
  | some fs => fs.filter (fun f => f.code ∈ DROM_CODES)

/-- The fetch effect (lines 123-131): a successful fetch yields a parsed
body whose `features` field may be absent, and the catch handler
substitutes `{ features: [] }` on error. -/
def geoDataOfFetch : Except String (Option (List Feature)) → Option (List Feature)
  | Except.error _ => some []
  | Except.ok fs => fs

/-! ### Inset Layout Engine -/

/-- One entry of the DROM configuration table: display name, initials, and
the screen-space box `[[x0,y0],[x1,y1]]`. -/
structure DromConfig where
  name : String
  initials : String
  box : (ℚ × ℚ) × (ℚ × ℚ)
deriving DecidableEq, Repr

/-- `getDromConfig` (FranceMap.tsx lines 19-48), read as the lookup of a
code in the returned object: the mobile variant computes a centered
horizontal row of 60-by-60 boxes with gap 12 starting at y 390 on the
550-by-450 canvas; the desktop variant is the literal vertical column of
70-by-80 boxes on the left edge of the 550-by-550 canvas. -/
def getDromConfig (isMobile : Bool) (code : String) : Option DromConfig :=
  if isMobile then
    let boxSize : ℚ := 60
    let gap : ℚ := 12
    let totalWidth : ℚ := boxSize * 5 + gap * 4
    let startX : ℚ := (550 - totalWidth) / 2
    let startY : ℚ := 390
    if code = "971" then
      some ⟨"Guadeloupe", "GP",
        ((startX, startY), (startX + boxSize, startY + boxSize))⟩
    else if code = "972" then
      some ⟨"Martinique", "MQ",
        ((startX + 1 * (boxSize + gap), startY),
         (startX + 1 * (boxSize + gap) + boxSize, startY + boxSize))⟩
    else if code = "973" then
      some ⟨"Guyane", "GF",
        ((startX + 2 * (boxSize + gap), startY),
         (startX + 2 * (boxSize + gap) + boxSize, startY + boxSize))⟩
    else if code = "974" then
      some ⟨"La Réunion", "RE",
        ((startX + 3 * (boxSize + gap), startY),
         (startX + 3 * (boxSize + gap) + boxSize, startY + boxSize))⟩
    else if code = "976" then
      some ⟨"Mayotte", "YT",
        ((startX + 4 * (boxSize + gap), startY),
         (startX + 4 * (boxSize + gap) + boxSize, startY + boxSize))⟩
    else none
  else
    if code = "971" then some ⟨"Guadeloupe", "GP", ((5, 20), (75, 100))⟩
    else if code = "972" then some ⟨"Martinique", "MQ", ((5, 120), (75, 200))⟩
    else if code = "973" then some ⟨"Guyane", "GF", ((5, 220), (75, 300))⟩
    else if code = "974" then some ⟨"La Réunion", "RE", ((5, 320), (75, 400))⟩
    else if code = "976" then some ⟨"Mayotte", "YT", ((5, 420), (75, 500))⟩
    else none

/-! ### Render surface: insets -/

/-- What the inset box contains besides the rect: the fitted geometry path
when one was produced, or the initials text fallback otherwise
(FranceMap.tsx lines 303-323). -/
inductive InsetShape
  | path (d : String)
  | initials (s : String)
deriving DecidableEq, Repr

/-- The rendered output for one inset: the rect with its box, the shape or
initials fallback, and the name label text (lines 284-335). -/
structure InsetRender where
  box : (ℚ × ℚ) × (ℚ × ℚ)
  shape : InsetShape
  label : String
deriving DecidableEq, Repr

/-- JavaScript truthiness of the `dAttribute` value: null or undefined and
the empty string are falsy. -/
def jsTruthy (s : Option String) : Bool :=
  match s with
  | none => false
  | some d => decide (d ≠ "")

/-- The `dAttribute` computation (FranceMap.tsx lines 273-282): undefined
when the inset feature is missing; otherwise the external fitExtent plus
geoPath call runs inside try/catch, a thrown error is caught (leaving
dAttribute undefined) and a null path is kept as undefined as well.  The
external d3 call is the parameter `d3fit`, which may throw (`Except.error`)
or return a nullable path string. -/
def insetDAttribute (d3fit : Feature → Except String (Option String))
    (feature : Option Feature) : Option String :=
  match feature with
  | none => none
  | some f =>
    match d3fit f with
    | Except.error _ => none
    | Except.ok d => d

/-- One element of the `DROM_CODES.map` render loop (lines 260-337): find
the feature for the code among the DROM features, look up its box config
(rendering nothing when absent), then render the rect, the path when the
dAttribute is truthy or the initials text otherwise, and the name label. -/
def renderInset (d3fit : Feature → Except String (Option String))
    (isMobile : Bool) (dromFs : List Feature) (code : String) :
    Option InsetRender :=
  let feature := dromFs.find? (fun f => decide (f.code = code))
  match getDromConfig isMobile code with
  | none => none
  | some config =>
    let dAttribute := insetDAttribute d3fit feature
    some { box := config.box
           shape := if jsTruthy dAttribute then
                      InsetShape.path (dAttribute.getD "")
                    else InsetShape.initials config.initials
           label := config.name }

/-- The full inset render pass: one (possibly absent) rendered element per
DROM code, each computed independently. -/
def renderInsets (d3fit : Feature → Except String (Option String))
    (isMobile : Bool) (dromFs : List Feature) : List (Option InsetRender) :=
  DROM_CODES.map (renderInset d3fit isMobile dromFs)

/-! ### Render surface: mainland -/

/-- The rendered output for one mainland feature: the optional path `d`
attribute and the interaction group data, namely the name set on hover
entry and the name reported on click (FranceMap.tsx lines 231-256). -/
structure MainlandRender where
  dAttr : Option String
  hoverTarget : String
  clickPayload : String
deriving DecidableEq, Repr

/-- One element of the `metropoleFeatures.map` render loop (lines 231-256):
`d={mainPathGenerator(feature) || undefined}` turns a null (or falsy) path
into an absent attribute, while the surrounding group always carries the
hover and click handlers for the feature name.  The external path
generator is the parameter `pathGen`, returning a nullable path string. -/
def renderMainland (pathGen : Feature → Option String) (f : Feature) :
    MainlandRender :=
  { dAttr := if jsTruthy (pathGen f) then pathGen f else none
    hoverTarget := f.nom
    clickPayload := f.nom }

/-! ### Helper lemmas -/

theorem constrainScale_one_le (k : ℚ) : 1 ≤ constrainScale k :=
  le_max_left _ _

theorem constrainScale_le_eight (k : ℚ) : constrainScale k ≤ 8 :=
  max_le (by norm_num [scaleExtentLo]) (min_le_left _ _)

/-! ### Claim theorems -/

/-- C1: every scale-change request (programmatic or gesture-driven) is
clamped to the scale extent: the resulting scale lies in [1, 8], requests
below 1 land exactly on 1, requests above 8 exactly on 8, and in-range
requests pass through unchanged; the clamp is a total function, so no
request is rejected as an error. -/
theorem scale_requests_clamped (k : ℚ) :
    1 ≤ constrainScale k ∧ constrainScale k ≤ 8 ∧
    (k < 1 → constrainScale k = 1) ∧
    (8 < k → constrainScale k = 8) ∧
    (1 ≤ k → k ≤ 8 → constrainScale k = k) := by
  refine ⟨constrainScale_one_le k, constrainScale_le_eight k, ?_, ?_, ?_⟩
  · intro hk
    unfold constrainScale scaleExtentLo scaleExtentHi
    rw [min_eq_right (by linarith), max_eq_left (by linarith)]
  · intro hk
    unfold constrainScale scaleExtentLo scaleExtentHi
    rw [min_eq_left (by linarith), max_eq_right (by norm_num)]
  · intro hk1 hk8
    unfold constrainScale scaleExtentLo scaleExtentHi
    rw [min_eq_right hk8, max_eq_right hk1]

/-- Closed instance of `scale_requests_clamped` at the request 20. -/
theorem scale_requests_clamped_witness :
    1 ≤ constrainScale 20 ∧ constrainScale 20 ≤ 8 ∧
    ((20 : ℚ) < 1 → constrainScale 20 = 1) ∧
    ((8 : ℚ) < 20 → constrainScale 20 = 8) ∧
    ((1 : ℚ) ≤ 20 → (20 : ℚ) ≤ 8 → constrainScale 20 = 20) :=
  scale_requests_clamped 20

/-- C2 counterexample: with the solar window (sunrise 360, sunset 400) the
dusk band [340, 460) overlaps the dawn band [300, 390); at time 350 the
claim as stated requires the dusk color, but the first-match chain returns
the dawn color. -/
theorem highlight_band_overlap_cex :
    inDuskBand 350 ⟨360, 400⟩ ∧ inDawnBand 350 ⟨360, 400⟩ ∧
    highlightColor 350 (some ⟨360, 400⟩) = dawnColor ∧
    highlightColor 350 (some ⟨360, 400⟩) ≠ duskColor := by
  have hc : highlightColor 350 (some ⟨360, 400⟩) = dawnColor := by
    simp only [highlightColor, resolveSolar, Option.getD_some]
    rw [if_pos (by norm_num)]
  refine ⟨by norm_num [inDuskBand], by norm_num [inDawnBand], hc, ?_⟩
  rw [hc]
  simp [dawnColor, duskColor]

/-- C2 amended: whenever the solar window is wide enough that the dawn and
dusk bands cannot meet (sunset at least 90 minutes after sunrise), the four
bands are pairwise disjoint and the highlight-color function returns
exactly the color of the band containing the time, with the night color on
the complement — so exactly one branch applies to every input. -/
theorem highlight_bands_partition (time : ℚ) (s : SolarWindow)
    (h : s.sunrise + 90 ≤ s.sunset) :
    (inDawnBand time s → highlightColor time (some s) = dawnColor) ∧
    (inDayBand time s → highlightColor time (some s) = dayColor) ∧
    (inDuskBand time s → highlightColor time (some s) = duskColor) ∧
    (¬ inDawnBand time s → ¬ inDayBand time s → ¬ inDuskBand time s →
        highlightColor time (some s) = nightColor) ∧
    ¬ (inDawnBand time s ∧ inDayBand time s) ∧
    ¬ (inDawnBand time s ∧ inDuskBand time s) ∧
    ¬ (inDayBand time s ∧ inDuskBand time s) := by
  have hdd : ¬ (inDawnBand time s ∧ inDayBand time s) := by
    rintro ⟨⟨_, a2⟩, b1, _⟩; linarith
  have hdk : ¬ (inDawnBand time s ∧ inDuskBand time s) := by
    rintro ⟨⟨_, a2⟩, c1, _⟩; linarith
  have hyk : ¬ (inDayBand time s ∧ inDuskBand time s) := by
    rintro ⟨⟨_, b2⟩, c1, _⟩; linarith
  refine ⟨?_, ?_, ?_, ?_, hdd, hdk, hyk⟩
  · rintro ⟨a1, a2⟩
    simp only [highlightColor, resolveSolar, Option.getD_some, ge_iff_le]
    rw [if_pos ⟨a1, a2⟩]
  · rintro ⟨b1, b2⟩
    simp only [highlightColor, resolveSolar, Option.getD_some, ge_iff_le]
    rw [if_neg (by rintro ⟨_, a2⟩; linarith), if_pos ⟨b1, b2⟩]
  · rintro ⟨c1, c2⟩
    simp only [highlightColor, resolveSolar, Option.getD_some, ge_iff_le]
    rw [if_neg (by rintro ⟨_, a2⟩; linarith),
        if_neg (by rintro ⟨_, b2⟩; linarith), if_pos ⟨c1, c2⟩]
  · intro hna hnd hnk
    simp only [inDawnBand, inDayBand, inDuskBand] at hna hnd hnk
    simp only [highlightColor, resolveSolar, Option.getD_some, ge_iff_le]
    rw [if_neg hna, if_neg hnd, if_neg hnk]

/-- Closed instance of `highlight_bands_partition` at time 390 with the
default window (360, 1080). -/
theorem highlight_bands_partition_witness :
    (SolarWindow.mk 360 1080).sunrise + 90 ≤ (SolarWindow.mk 360 1080).sunset ∧
    ((inDawnBand 390 ⟨360, 1080⟩ →
        highlightColor 390 (some ⟨360, 1080⟩) = dawnColor) ∧
     (inDayBand 390 ⟨360, 1080⟩ →
        highlightColor 390 (some ⟨360, 1080⟩) = dayColor) ∧
     (inDuskBand 390 ⟨360, 1080⟩ →
        highlightColor 390 (some ⟨360, 1080⟩) = duskColor) ∧
     (¬ inDawnBand 390 ⟨360, 1080⟩ → ¬ inDayBand 390 ⟨360, 1080⟩ →
        ¬ inDuskBand 390 ⟨360, 1080⟩ →
        highlightColor 390 (some ⟨360, 1080⟩) = nightColor) ∧
     ¬ (inDawnBand 390 ⟨360, 1080⟩ ∧ inDayBand 390 ⟨360, 1080⟩) ∧
     ¬ (inDawnBand 390 ⟨360, 1080⟩ ∧ inDuskBand 390 ⟨360, 1080⟩) ∧
     ¬ (inDayBand 390 ⟨360, 1080⟩ ∧ inDuskBand 390 ⟨360, 1080⟩)) :=
  ⟨by norm_num, highlight_bands_partition 390 ⟨360, 1080⟩ (by norm_num)⟩

/-- C3 counterexample: the claim predicts that zooming out from scale 3
lands on 3 / 1.5 = 2, but `handleZoomOut` passes the literal factor 0.66,
so the code lands on 3 * 0.66 = 1.98; the factor 0.66 is not 1 / 1.5. -/
theorem zoomOut_factor_cex :
    handleZoomOutScale 3 = 99 / 50 ∧
    constrainScale (3 * (1 / zoomInFactor)) = 2 ∧
    (99 / 50 : ℚ) ≠ 2 ∧
    zoomOutFactor ≠ 1 / zoomInFactor := by
  refine ⟨?_, ?_, by norm_num, ?_⟩
  · unfold handleZoomOutScale scaleBy constrainScale zoomOutFactor
      scaleExtentLo scaleExtentHi
    rw [show (3 : ℚ) * (66 / 100) = 99 / 50 by norm_num,
        min_eq_right (by norm_num), max_eq_right (by norm_num)]
  · unfold constrainScale zoomInFactor scaleExtentLo scaleExtentHi
    rw [show (3 : ℚ) * (1 / (15 / 10)) = 2 by norm_num,
        min_eq_right (by norm_num), max_eq_right (by norm_num)]
  · unfold zoomOutFactor zoomInFactor
    norm_num

/-- C3 amended: `handleZoomIn` multiplies the current scale by 1.5 and
`handleZoomOut` by the literal factor 0.66 (close to, but not equal to,
1 / 1.5), each result clamped to [1, 8], and both transitions last
300 ms. -/
theorem zoom_handlers_clamped (k : ℚ) :
    handleZoomInScale k = constrainScale (k * (15 / 10)) ∧
    handleZoomOutScale k = constrainScale (k * (66 / 100)) ∧
    1 ≤ handleZoomInScale k ∧ handleZoomInScale k ≤ 8 ∧
    1 ≤ handleZoomOutScale k ∧ handleZoomOutScale k ≤ 8 ∧
    zoomInDurationMs = 300 ∧ zoomOutDurationMs = 300 :=
  ⟨rfl, rfl, constrainScale_one_le _, constrainScale_le_eight _,
   constrainScale_one_le _, constrainScale_le_eight _, rfl, rfl⟩

/-- C4: the gesture filter accepts mousedown and touchstart regardless of
the modifier, accepts wheel exactly when Ctrl is held, rejects every other
event, and a rejected event (in particular a wheel event without Ctrl)
leaves the transform unchanged. -/
theorem gesture_filter_policy (c : Bool) (t : Transform)
    (update : Transform → Transform) :
    zoomFilter ⟨EventType.mousedown, c⟩ = true ∧
    zoomFilter ⟨EventType.touchstart, c⟩ = true ∧
    zoomFilter ⟨EventType.wheel, c⟩ = c ∧
    zoomFilter ⟨EventType.other, c⟩ = false ∧
    gestureStep t ⟨EventType.wheel, false⟩ update = t := by
  cases c <;> simp [zoomFilter, gestureStep]

/-- C7 counterexample: for the degenerate window (sunrise 500, sunset 100)
the time 500 equals the sunrise, yet `isNight` is true there (500 exceeds
the sunset), contradicting the claim that `isNight` is false at a time
exactly equal to sunrise. -/
theorem isNight_boundary_cex :
    (SolarWindow.mk 500 100).sunrise = 500 ∧
    isNight 500 (some ⟨500, 100⟩) = true := by
  refine ⟨rfl, ?_⟩
  simp only [isNight, resolveSolar, Option.getD_some, Bool.or_eq_true,
    decide_eq_true_eq]
  right
  norm_num

/-- C7 amended: `isNight` is true exactly when time < sunrise or
time > sunset of the resolved window; whenever the window is
non-degenerate (sunrise at most sunset) it is false at a time exactly
equal to sunrise or to sunset; and an absent lookup resolves to the
default window (360, 1080), which both `isNight` and `highlightColor`
use. -/
theorem isNight_characterization (time : ℚ) (lookup : Option SolarWindow)
    (s : SolarWindow) (hws : s.sunrise ≤ s.sunset) :
    (isNight time lookup = true ↔
      time < (resolveSolar lookup).sunrise ∨
        (resolveSolar lookup).sunset < time) ∧
    isNight s.sunrise (some s) = false ∧
    isNight s.sunset (some s) = false ∧
    resolveSolar none = ⟨360, 1080⟩ ∧
    isNight time none = isNight time (some ⟨360, 1080⟩) ∧
    highlightColor time none = highlightColor time (some ⟨360, 1080⟩) := by
  refine ⟨?_, ?_, ?_, rfl, rfl, rfl⟩
  · simp [isNight, Bool.or_eq_true, decide_eq_true_eq, gt_iff_lt]
  · simp only [isNight, resolveSolar, Option.getD_some, gt_iff_lt,
      Bool.or_eq_false_iff, decide_eq_false_iff_not, not_lt]
    exact ⟨le_refl _, hws⟩
  · simp only [isNight, resolveSolar, Option.getD_some, gt_iff_lt,
      Bool.or_eq_false_iff, decide_eq_false_iff_not, not_lt]
    exact ⟨hws, le_refl _⟩

/-- Closed instance of `isNight_characterization` at time 200 with an
absent lookup and the default window. -/
theorem isNight_characterization_witness :
    (SolarWindow.mk 360 1080).sunrise ≤ (SolarWindow.mk 360 1080).sunset ∧
    ((isNight 200 none = true ↔
        (200 : ℚ) < (resolveSolar none).sunrise ∨
          (resolveSolar none).sunset < 200) ∧
     isNight (SolarWindow.mk 360 1080).sunrise (some ⟨360, 1080⟩) = false ∧
     isNight (SolarWindow.mk 360 1080).sunset (some ⟨360, 1080⟩) = false ∧
     resolveSolar none = ⟨360, 1080⟩ ∧
     isNight 200 none = isNight 200 (some ⟨360, 1080⟩) ∧
     highlightColor 200 none = highlightColor 200 (some ⟨360, 1080⟩)) :=
  ⟨by norm_num, isNight_characterization 200 none ⟨360, 1080⟩ (by norm_num)⟩

/-- One axis of the pan clamp: with scale at least 1 and a positive extent,
the constrained translation keeps both inverted viewport corners inside
[0, w]. -/
theorem constrainAxis_mem (k x w : ℚ) (hk : 1 ≤ k) (hw : 0 < w) :
    0 ≤ (0 - constrainAxis k x w) / k ∧ (w - constrainAxis k x w) / k ≤ w := by
  have hk0 : 0 < k := lt_of_lt_of_le one_pos hk
  have hkne : k ≠ 0 := ne_of_gt hk0
  have hwk : w ≤ w * k := by nlinarith
  simp only [constrainAxis]
  set a : ℚ := (0 - x) / k - 0 with ha
  set b : ℚ := (w - x) / k - w with hb
  have hak : a * k = -x := by
    rw [ha]; field_simp
  have hbk : b * k = w - x - w * k := by
    rw [hb]; field_simp; ring
  have hba : b ≤ a := (mul_le_mul_right hk0).mp (by rw [hak, hbk]; linarith)
  rw [if_neg (not_lt.mpr hba)]
  rcases lt_or_le a 0 with h1 | h1
  · rw [min_eq_right h1.le]
    simp only [jsOr]
    rw [if_neg (ne_of_lt h1)]
    have hx : x + k * a = 0 := by
      have hka : k * a = -x := by rw [mul_comm]; exact hak
      rw [hka]; ring
    rw [hx]
    constructor
    · simp
    · rw [div_le_iff hk0]; linarith
  · rw [min_eq_left h1]
    simp only [jsOr]
    rw [if_pos trivial]
    rcases le_or_lt b 0 with h2 | h2
    · rw [max_eq_left h2]
      have hb0 : b * k ≤ 0 := mul_nonpos_iff.mpr (Or.inr ⟨h2, hk0.le⟩)
      have hx : x ≤ 0 := by linarith [mul_nonneg h1 hk0.le, hak]
      rw [mul_zero, add_zero]
      constructor
      · exact div_nonneg (by linarith) hk0.le
      · rw [div_le_iff hk0]; linarith
    · rw [max_eq_right h2.le]
      have hx : x + k * b = w - w * k := by
        have hkb : k * b = w - x - w * k := by rw [mul_comm]; exact hbk
        rw [hkb]; ring
      rw [hx]
      constructor
      · exact div_nonneg (by linarith) hk0.le
      · rw [div_le_iff hk0]; linarith

/-- C5: for every transform whose scale respects the scale extent lower
bound, the d3 translation constraint configured at line 78 clamps the
translation so that the visible window (the inverted viewport corners)
stays inside [0, 550] x [0, canvasHeight], with canvas height 550 on
desktop and 450 on mobile; the scale is untouched. -/
theorem pan_clamped (isMobile : Bool) (t : Transform) (hk : 1 ≤ t.k) :
    0 ≤ (constrainTranslate isMobile t).invertX 0 ∧
    (constrainTranslate isMobile t).invertX canvasWidth ≤ canvasWidth ∧
    0 ≤ (constrainTranslate isMobile t).invertY 0 ∧
    (constrainTranslate isMobile t).invertY (canvasHeight isMobile) ≤
      canvasHeight isMobile ∧
    (constrainTranslate isMobile t).k = t.k := by
  have hW : (0 : ℚ) < canvasWidth := by norm_num [canvasWidth]
  have hH : (0 : ℚ) < canvasHeight isMobile := by
    cases isMobile <;> norm_num [canvasHeight]
  have hx := constrainAxis_mem t.k t.x canvasWidth hk hW
  have hy := constrainAxis_mem t.k t.y (canvasHeight isMobile) hk hH
  exact ⟨hx.1, hx.2, hy.1, hy.2, rfl⟩

/-- Closed instance of `pan_clamped`: on desktop, the transform with scale
2 and translation (-300, 100) is clamped back inside the canvas bounds. -/
theorem pan_clamped_witness :
    0 ≤ (constrainTranslate false ⟨2, -300, 100⟩).invertX 0 ∧
    (constrainTranslate false ⟨2, -300, 100⟩).invertX canvasWidth ≤
      canvasWidth ∧
    0 ≤ (constrainTranslate false ⟨2, -300, 100⟩).invertY 0 ∧
    (constrainTranslate false ⟨2, -300, 100⟩).invertY (canvasHeight false) ≤
      canvasHeight false ∧
    (constrainTranslate false ⟨2, -300, 100⟩).k = 2 :=
  pan_clamped false ⟨2, -300, 100⟩ (by norm_num)

/-- C6: partitioning the feature collection. Membership in the mainland
list is membership in the supplied collection with a code outside the DROM
set, membership in the DROM list is membership with a code inside it, no
feature is in both, every supplied feature is in one of the two, and an
absent, empty or fetch-error collection yields two empty lists. -/
theorem feature_partition (geoFeatures : Option (List Feature)) (f : Feature)
    (s : String) :
    (f ∈ metropoleFeatures geoFeatures ↔
      f ∈ geoFeatures.getD [] ∧ ¬ f.code ∈ DROM_CODES) ∧
    (f ∈ dromFeatures geoFeatures ↔
      f ∈ geoFeatures.getD [] ∧ f.code ∈ DROM_CODES) ∧
    ¬ (f ∈ metropoleFeatures geoFeatures ∧ f ∈ dromFeatures geoFeatures) ∧
    (f ∈ geoFeatures.getD [] →
      f ∈ metropoleFeatures geoFeatures ∨ f ∈ dromFeatures geoFeatures) ∧
    metropoleFeatures none = [] ∧ dromFeatures none = [] ∧
    metropoleFeatures (geoDataOfFetch (Except.error s)) = [] ∧
    dromFeatures (geoDataOfFetch (Except.error s)) = [] := by
  cases geoFeatures with
  | none =>
    simp [metropoleFeatures, dromFeatures, geoDataOfFetch]
  | some fs =>
    have hm : f ∈ metropoleFeatures (some fs) ↔
        f ∈ fs ∧ ¬ f.code ∈ DROM_CODES := by
      simp [metropoleFeatures, List.mem_filter]
    have hd : f ∈ dromFeatures (some fs) ↔
        f ∈ fs ∧ f.code ∈ DROM_CODES := by
      simp [dromFeatures, List.mem_filter]
    refine ⟨hm, hd, ?_, ?_, rfl, rfl, rfl, rfl⟩
    · rintro ⟨h1, h2⟩
      exact (hm.mp h1).2 (hd.mp h2).2
    · intro hf
      by_cases hc : f.code ∈ DROM_CODES
      · exact Or.inr (hd.mpr ⟨hf, hc⟩)
      · exact Or.inl (hm.mpr ⟨hf, hc⟩)

/-- C8: when the box configuration for an inset code exists but the fitted
path is unavailable (missing feature, a projection call that throws and is
caught, a null path, or an empty path string), the inset still renders:
the result is the box with the initials-text fallback and the name label,
and the whole inset render pass still produces one entry per DROM code. -/
theorem inset_degenerate_fallback
    (d3fit : Feature → Except String (Option String)) (isMobile : Bool)
    (dromFs : List Feature) (code : String) (cfg : DromConfig)
    (hcfg : getDromConfig isMobile code = some cfg)
    (hfail : jsTruthy (insetDAttribute d3fit
      (dromFs.find? (fun f => decide (f.code = code)))) = false) :
    renderInset d3fit isMobile dromFs code =
      some ⟨cfg.box, InsetShape.initials cfg.initials, cfg.name⟩ ∧
    (renderInset d3fit isMobile dromFs code).isSome = true ∧
    (renderInsets d3fit isMobile dromFs).length = 5 := by
  have h1 : renderInset d3fit isMobile dromFs code =
      some ⟨cfg.box, InsetShape.initials cfg.initials, cfg.name⟩ := by
    simp only [renderInset, hcfg, hfail]
    simp
  exact ⟨h1, by rw [h1]; rfl, rfl⟩

/-- Closed instance of `inset_degenerate_fallback`: a projection call that
always throws, an empty feature list and the desktop 971 box still render
the box with the initials text. -/
theorem inset_degenerate_fallback_witness :
    renderInset (fun _ => Except.error "err") false [] "971" =
      some ⟨((5, 20), (75, 100)), InsetShape.initials "GP", "Guadeloupe"⟩ ∧
    (renderInset (fun _ => Except.error "err") false [] "971").isSome =
      true ∧
    (renderInsets (fun _ => Except.error "err") false []).length = 5 :=
  inset_degenerate_fallback (fun _ => Except.error "err") false [] "971"
    ⟨"Guadeloupe", "GP", ((5, 20), (75, 100))⟩ (by norm_num [getDromConfig])
    rfl

/-- C9: the mobile inset layout. A code has a box exactly when it is one
of the five DROM codes; the five boxes are 60 by 60 at y from 390 to 450,
laid out left to right with gap 12 starting at x = 101, which equals
(550 - (5*60 + 4*12)) / 2, and the row is horizontally centered: the left
margin 101 equals the right margin 550 - 449. -/
theorem mobile_inset_layout (code : String) :
    ((getDromConfig true code).isSome = true ↔ code ∈ DROM_CODES) ∧
    getDromConfig true "971" =
      some ⟨"Guadeloupe", "GP", ((101, 390), (161, 450))⟩ ∧
    getDromConfig true "972" =
      some ⟨"Martinique", "MQ", ((173, 390), (233, 450))⟩ ∧
    getDromConfig true "973" =
      some ⟨"Guyane", "GF", ((245, 390), (305, 450))⟩ ∧
    getDromConfig true "974" =
      some ⟨"La Réunion", "RE", ((317, 390), (377, 450))⟩ ∧
    getDromConfig true "976" =
      some ⟨"Mayotte", "YT", ((389, 390), (449, 450))⟩ ∧
    (101 : ℚ) = (canvasWidth - (5 * 60 + 4 * 12)) / 2 ∧
    canvasWidth - 449 = 101 ∧
    (450 : ℚ) = canvasHeight true := by
  have e1 : getDromConfig true "971" =
      some ⟨"Guadeloupe", "GP", ((101, 390), (161, 450))⟩ := by
    simp only [getDromConfig, if_true]
    norm_num
  have e2 : getDromConfig true "972" =
      some ⟨"Martinique", "MQ", ((173, 390), (233, 450))⟩ := by
    simp only [getDromConfig, if_true]
    rw [if_neg (by decide)]
    norm_num
  have e3 : getDromConfig true "973" =
      some ⟨"Guyane", "GF", ((245, 390), (305, 450))⟩ := by
    simp only [getDromConfig, if_true]
    rw [if_neg (by decide), if_neg (by decide)]
    norm_num
  have e4 : getDromConfig true "974" =
      some ⟨"La Réunion", "RE", ((317, 390), (377, 450))⟩ := by
    simp only [getDromConfig, if_true]
    rw [if_neg (by decide), if_neg (by decide), if_neg (by decide)]
    norm_num
  have e5 : getDromConfig true "976" =
      some ⟨"Mayotte", "YT", ((389, 390), (449, 450))⟩ := by
    simp only [getDromConfig, if_true]
    rw [if_neg (by decide), if_neg (by decide), if_neg (by decide),
      if_neg (by decide)]
    norm_num
  have hnone : code ∉ DROM_CODES → getDromConfig true code = none := by
    intro hc
    simp only [DROM_CODES, List.mem_cons, List.not_mem_nil, or_false] at hc
    push_neg at hc
    obtain ⟨n1, n2, n3, n4, n5⟩ := hc
    simp only [getDromConfig, if_true]
    rw [if_neg n1, if_neg n2, if_neg n3, if_neg n4, if_neg n5]
  refine ⟨⟨?_, ?_⟩, e1, e2, e3, e4, e5, by norm_num [canvasWidth],
    by norm_num [canvasWidth], by norm_num [canvasHeight]⟩
  · intro h
    by_contra hc
    rw [hnone hc] at h
    simp at h
  · intro h
    simp only [DROM_CODES, List.mem_cons, List.not_mem_nil, or_false] at h
    rcases h with h | h | h | h | h <;> subst h
    · rw [e1]; rfl
    · rw [e2]; rfl
    · rw [e3]; rfl
    · rw [e4]; rfl
    · rw [e5]; rfl

/-- C10: a mainland feature whose path generator yields no drawable path
still renders: the null (or falsy) result becomes an absent path
attribute, while the interaction group always carries the feature name
for hover and click, independently of the path generator. -/
theorem mainland_null_path_fallback
    (pathGen pathGen2 : Feature → Option String) (f : Feature) :
    (pathGen f = none → (renderMainland pathGen f).dAttr = none) ∧
    (renderMainland pathGen f).hoverTarget = f.nom ∧
    (renderMainland pathGen f).clickPayload = f.nom ∧
    (renderMainland pathGen f).hoverTarget =
      (renderMainland pathGen2 f).hoverTarget ∧
    (renderMainland pathGen f).clickPayload =
      (renderMainland pathGen2 f).clickPayload := by
  refine ⟨?_, rfl, rfl, rfl, rfl⟩
  intro h
  simp [renderMainland, h, jsTruthy]

end FranceMap
